import Mathlib

/- Shallow embedding of the function get_config from src/salt/modules/boto3_asg.py.

   The embedding follows the source line by line:
   - Python dict / OrderedDict values are modelled by PyVal, with ordered
     mappings as association lists (Python 3.7+ dicts and OrderedDict both
     preserve insertion order, and assignment to an existing key updates the
     value in place without moving the key).
   - Python exceptions are modelled by the PyExc type inside Except:
     boto.exception.BotoServerError (discriminated by its code field, the only
     field the source reads), AttributeError (raised by calling the split
     method on a non-string), ValueError (raised by the int builtin on a
     string that is not an integer literal), and KeyError / TypeError for
     malformed provider data.
   - The two provider clients (the legacy conn object and the boto3 paginator
     client) are modelled by one Client record of stub functions indexed by
     the loop-iteration number, so that a stub provider may answer differently
     on successive attempts, as the retry loop re-issues the calls.
   - The while True retry loop is modelled by structural recursion on the
     remaining retries counter, which the source decrements before each
     continue, so the recursion mirrors the source exactly.
   - The returned RunResult additionally records how many times the describe
     call was issued (attempts) and how many 5 second sleeps happened, the
     two quantities the specification talks about. -/

namespace Boto3Asg

/-- Python values: strings, ints, booleans, None, lists, and insertion-ordered
dicts (association lists). -/
inductive PyVal where
  | vStr (s : String)
  | vInt (n : Int)
  | vBool (b : Bool)
  | vNone
  | vList (l : List PyVal)
  | vDict (l : List (String × PyVal))

/-- An ordered mapping from string keys to Python values, as used for the
OrderedDict named ret in the source. -/
abbrev OD := List (String × PyVal)

/-- Assignment d[k] = v on an insertion-ordered Python mapping: an existing
key keeps its position and gets the new value, a fresh key is appended. -/
def odSet : OD → String → PyVal → OD
  | [], k, v => [(k, v)]
  | (k₀, v₀) :: rest, k, v =>
    if k₀ = k then (k, v) :: rest else (k₀, v₀) :: odSet rest k v

/-- Lookup d[k] on an ordered mapping (keys are unique, first match wins). -/
def odGet : OD → String → Option PyVal
  | [], _ => none
  | (k₀, v₀) :: rest, k => if k₀ = k then some v₀ else odGet rest k

/-- The key sequence of an ordered mapping, in insertion order. -/
def odKeys (d : OD) : List String := d.map Prod.fst

/-- The structured provider error of the source (boto BotoServerError); the
source only ever reads its code field. -/
structure BotoServerError where
  code : String

/-- The Python exceptions that the body of get_config can raise. -/
inductive PyExc where
  | botoServerError (e : BotoServerError)
  | attributeError
  | valueError
  | keyError
  | typeError

/-- A provider field value that is either a string or a native list of
strings; the source comment notes boto accepts both for the VPC zone
identifier, and only the string shape has a split method. -/
inductive StrOrList where
  | str (s : String)
  | list (l : List String)

/-- A raw provider tag object, with the boto3 field names. -/
structure RawTag where
  Key : String
  Value : String
  PropagateAtLaunch : Bool

/-- A raw provider suspended-process object. -/
structure RawSuspendedProcess where
  ProcessName : String

/-- A raw autoscaling-group record as returned by the boto3 describe call,
with the provider field names used by attr_key_lookup. -/
structure RawASG where
  AutoScalingGroupName : String
  AvailabilityZones : List String
  DefaultCooldown : Int
  DesiredCapacity : Int
  HealthCheckGracePeriod : Int
  HealthCheckType : String
  LaunchConfigurationName : String
  LoadBalancerNames : List String
  MaxSize : Int
  MinSize : Int
  VPCZoneIdentifier : StrOrList
  Tags : List RawTag
  TerminationPolicies : List String
  SuspendedProcesses : List RawSuspendedProcess

/-- A raw boto scaling-policy object; the source copies its five attributes
verbatim into the output, so they are kept as opaque Python values. -/
structure RawPolicy where
  name : PyVal
  adjustment_type : PyVal
  scaling_adjustment : PyVal
  min_adjustment_step : PyVal
  cooldown : PyVal

/-- A naive Python datetime (no timezone, zero microseconds), the shape boto
parses provider timestamps into. -/
structure PyDatetime where
  year : Nat
  month : Nat
  day : Nat
  hour : Nat
  minute : Nat
  second : Nat

/-- Zero-pad a number to two digits, as datetime.isoformat does. -/
def pad2 (n : Nat) : String := if n < 10 then "0" ++ toString n else toString n

/-- Zero-pad a year to four digits, as datetime.isoformat does. -/
def pad4 (n : Nat) : String :=
  if n < 10 then "000" ++ toString n
  else if n < 100 then "00" ++ toString n
  else if n < 1000 then "0" ++ toString n
  else toString n

/-- datetime.isoformat for a naive datetime with zero microseconds:
YYYY-MM-DDTHH:MM:SS. -/
def PyDatetime.isoformat (d : PyDatetime) : String :=
  pad4 d.year ++ "-" ++ pad2 d.month ++ "-" ++ pad2 d.day ++ "T" ++
    pad2 d.hour ++ ":" ++ pad2 d.minute ++ ":" ++ pad2 d.second

/-- The raw numeric representation the provider may use for the desired
capacity of a scheduled action: a Python int, a Python float (modelled by the
exact rational number it denotes), or a numeric string. -/
inductive PyNum where
  | ofInt (n : Int)
  | ofFloat (q : ℚ)
  | ofStr (s : String)

/-- Whether a character is an ASCII decimal digit, as accepted by the int
builtin. -/
def isPyDigit (c : Char) : Bool := 48 ≤ c.toNat && c.toNat ≤ 57

/-- Whether a character is ASCII whitespace, which the int builtin strips
from a string argument. -/
def isPyWs (c : Char) : Bool :=
  c = ' ' || c = '\t' || c = '\n' || c = '\r' || c = '\x0b' || c = '\x0c'

/-- The numeric value of a digit sequence, most significant first. -/
def digitsVal (cs : List Char) : Nat :=
  cs.foldl (fun acc c => acc * 10 + (c.toNat - 48)) 0

/-- Parse a nonempty all-digit character sequence, as the int builtin does
after sign and whitespace handling (digit-group underscores are not needed
for any provider value and are not modelled). -/
def parseDigits (cs : List Char) : Option Nat :=
  if cs ≠ [] ∧ cs.all isPyDigit then some (digitsVal cs) else none

/-- The int builtin applied to a string: surrounding whitespace is stripped,
an optional sign is allowed, and the rest must be a nonempty digit sequence;
anything else (for example the string 4.0) raises ValueError. -/
def pyIntOfString (s : String) : Except PyExc Int :=
  match (s.data.dropWhile isPyWs).reverse.dropWhile isPyWs |>.reverse with
  | '+' :: rest =>
    match parseDigits rest with
    | some n => .ok (n : Int)
    | none => .error .valueError
  | '-' :: rest =>
    match parseDigits rest with
    | some n => .ok (-(n : Int))
    | none => .error .valueError
  | rest =>
    match parseDigits rest with
    | some n => .ok (n : Int)
    | none => .error .valueError

/-- The int builtin applied to a float truncates toward zero. -/
def ratTrunc (q : ℚ) : Int := q.num.tdiv (q.den : Int)

/-- The int builtin as applied on the desired_capacity attribute: ints pass
through, floats truncate toward zero, strings are parsed as integer
literals, and a non-integer string raises ValueError. -/
def pyInt : PyNum → Except PyExc Int
  | .ofInt n => .ok n
  | .ofFloat q => .ok (ratTrunc q)
  | .ofStr s => pyIntOfString s

/-- A raw boto scheduled-action object: min_size, max_size and recurrence are
copied verbatim; desired_capacity carries the provider numeric
representation; start_time is always present on provider data while end_time
may be absent (None), which is exactly what the source tests for. -/
structure RawAction where
  name : String
  min_size : PyVal
  max_size : PyVal
  desired_capacity : PyNum
  start_time : PyDatetime
  end_time : Option PyDatetime
  recurrence : PyVal

/-- Python str.split on the comma separator: every occurrence of a comma
cuts the string, no merging of separators, and the empty string yields the
one-element list holding the empty string. -/
def splitCommaAux : List Char → List Char → List String
  | [], acc => [String.mk acc.reverse]
  | c :: rest, acc =>
    if c = ',' then String.mk acc.reverse :: splitCommaAux rest []
    else splitCommaAux rest (c :: acc)

/-- Python s.split on a comma for a string s. -/
def pySplitComma (s : String) : List String := splitCommaAux s.data []

/-- The expression asg[keyname].split in the source: only a string has a
split method; on a native list the attribute lookup raises AttributeError. -/
def vpcSplitValue : StrOrList → Except PyExc PyVal
  | .str s => .ok (.vList ((pySplitComma s).map .vStr))
  | .list _ => .error .attributeError

/-- Python string comparison, lexicographic on code points, as used by the
sorted builtin. -/
def charsLe : List Char → List Char → Bool
  | [], _ => true
  | _ :: _, [] => false
  | a :: as, b :: bs =>
    if a.toNat < b.toNat then true
    else if b.toNat < a.toNat then false
    else charsLe as bs

/-- Python string less-or-equal. -/
def lexLe (a b : String) : Bool := charsLe a.data b.data

/-- The sorted builtin on a list of strings. The code-point lexicographic
order on strings is total, transitive and antisymmetric, so every sorted
permutation of a given string list is the same list and the choice of
sorting algorithm is unobservable; insertion sort is used here as the
executable model. -/
def pySorted (l : List String) : List String :=
  List.insertionSort (fun a b => lexLe a b = true) l

/-- A provider field value as found by subscripting a raw group record:
the three specially-shaped fields are distinguished so each branch of the
source loop can apply its transform. -/
inductive RawAttr where
  | plain (v : PyVal)
  | vzi (v : StrOrList)
  | tags (l : List RawTag)
  | procs (l : List RawSuspendedProcess)

/-- Subscripting asg[keyname] on a raw group record by provider field name;
an unknown key raises KeyError in Python, modelled by the none result. -/
def RawASG.item (asg : RawASG) : String → Option RawAttr
  | "AutoScalingGroupName" => some (.plain (.vStr asg.AutoScalingGroupName))
  | "AvailabilityZones" => some (.plain (.vList (asg.AvailabilityZones.map .vStr)))
  | "DefaultCooldown" => some (.plain (.vInt asg.DefaultCooldown))
  | "DesiredCapacity" => some (.plain (.vInt asg.DesiredCapacity))
  | "HealthCheckGracePeriod" => some (.plain (.vInt asg.HealthCheckGracePeriod))
  | "HealthCheckType" => some (.plain (.vStr asg.HealthCheckType))
  | "LaunchConfigurationName" => some (.plain (.vStr asg.LaunchConfigurationName))
  | "LoadBalancerNames" => some (.plain (.vList (asg.LoadBalancerNames.map .vStr)))
  | "MaxSize" => some (.plain (.vInt asg.MaxSize))
  | "MinSize" => some (.plain (.vInt asg.MinSize))
  | "VPCZoneIdentifier" => some (.vzi asg.VPCZoneIdentifier)
  | "Tags" => some (.tags asg.Tags)
  | "TerminationPolicies" => some (.plain (.vList (asg.TerminationPolicies.map .vStr)))
  | "SuspendedProcesses" => some (.procs asg.SuspendedProcesses)
  | _ => none

/-- The static rename table of the source, mapping each output key to the
provider field name, in the insertion order of the dict literal (which is the
iteration order of the loop over attr_key_lookup.items()). -/
def attr_key_lookup : List (String × String) :=
  [("name", "AutoScalingGroupName"),
   ("availability_zones", "AvailabilityZones"),
   ("default_cooldown", "DefaultCooldown"),
   ("desired_capacity", "DesiredCapacity"),
   ("health_check_period", "HealthCheckGracePeriod"),
   ("health_check_type", "HealthCheckType"),
   ("launch_config_name", "LaunchConfigurationName"),
   ("load_balancers", "LoadBalancerNames"),
   ("max_size", "MaxSize"),
   ("min_size", "MinSize"),
   ("vpc_zone_identifier", "VPCZoneIdentifier"),
   ("tags", "Tags"),
   ("termination_policies", "TerminationPolicies"),
   ("suspended_processes", "SuspendedProcesses")]

/-- Expansion of one provider tag object into the three-field OrderedDict
built by the tags branch of the source loop. -/
def tagDict (tag : RawTag) : PyVal :=
  .vDict (odSet (odSet (odSet [] "key" (.vStr tag.Key))
    "value" (.vStr tag.Value)) "propagate_at_launch" (.vBool tag.PropagateAtLaunch))

/-- One iteration of the source loop over attr_key_lookup.items(): the
if/elif chain on the output attribute name, applying the per-field
transform and assigning into ret. -/
def processOne (asg : RawASG) (ret : OD) : String × String → Except PyExc OD
  | (attr, keyname) =>
    if attr = "tags" then
      match asg.item keyname with
      | some (.tags l) => .ok (odSet ret "tags" (.vList (l.map tagDict)))
      | some _ => .error .typeError
      | none => .error .keyError
    else if attr = "vpc_zone_identifier" then
      match asg.item keyname with
      | some (.vzi v) =>
        match vpcSplitValue v with
        | .ok sp => .ok (odSet ret attr sp)
        | .error e => .error e
      | some _ => .error .typeError
      | none => .error .keyError
    else if attr = "suspended_processes" then
      match asg.item keyname with
      | some (.procs l) =>
        .ok (odSet ret attr
          (.vList ((pySorted (l.map RawSuspendedProcess.ProcessName)).map .vStr)))
      | some _ => .error .typeError
      | none => .error .keyError
    else if attr = "placement_group" then
      .ok ret
    else
      match asg.item keyname with
      | some (.plain v) => .ok (odSet ret attr v)
      | some _ => .error .typeError
      | none => .error .keyError

/-- The loop of the source over the rename table, threading the OrderedDict
ret and propagating the first raised exception. -/
def buildAttrList : List (String × String) → RawASG → OD → Except PyExc OD
  | [], _, ret => .ok ret
  | kv :: rest, asg, ret =>
    match processOne asg ret kv with
    | .ok ret₂ => buildAttrList rest asg ret₂
    | .error e => .error e

/-- The attribute-normalization pass of the source: the loop over
attr_key_lookup.items() starting from the empty OrderedDict. -/
def buildAttrRet (asg : RawASG) : Except PyExc OD := buildAttrList attr_key_lookup asg []

/-- Projection of one boto policy object into the five-key dict appended to
ret["scaling_policies"], copying the five attributes in the order of the
dict literal in the source. -/
def policyDict (policy : RawPolicy) : PyVal :=
  .vDict [("name", policy.name),
          ("adjustment_type", policy.adjustment_type),
          ("scaling_adjustment", policy.scaling_adjustment),
          ("min_adjustment_step", policy.min_adjustment_step),
          ("cooldown", policy.cooldown)]

/-- The end_time value of a projected scheduled action: the source
initializes end_time to None and overwrites it with the isoformat string
only when the raw end_time is truthy (a datetime is always truthy, so this
tests presence). -/
def endTimeVal : Option PyDatetime → PyVal
  | some t => .vStr t.isoformat
  | none => .vNone

/-- The six-key dict stored for one scheduled action once the int coercion
of desired_capacity has produced dc, in the order of the dict literal in the
source. -/
def actionEntry (action : RawAction) (dc : Int) : PyVal :=
  .vDict [("min_size", action.min_size),
          ("max_size", action.max_size),
          ("desired_capacity", .vInt dc),
          ("start_time", .vStr action.start_time.isoformat),
          ("end_time", endTimeVal action.end_time),
          ("recurrence", action.recurrence)]

/-- Projection of one boto scheduled-action object, including the int
coercion of desired_capacity that the source marks with an AWS-bug comment;
a ValueError from the coercion propagates. -/
def actionDict (action : RawAction) : Except PyExc PyVal :=
  match pyInt action.desired_capacity with
  | .ok dc => .ok (actionEntry action dc)
  | .error e => .error e

/-- The loop of the source over the scheduled actions, assigning each
projected action into the mapping keyed by action name. -/
def buildScheduledActions : List RawAction → OD → Except PyExc OD
  | [], m => .ok m
  | action :: rest, m =>
    match actionDict action with
    | .ok d => buildScheduledActions rest (odSet m action.name d)
    | .error e => .error e

/-- The provider calls issued inside the retry loop: the paginated boto3
describe (already accumulated across pages by build_full_result), and the
two legacy-client lookups scoped by group name. Each stub is additionally
indexed by the loop-iteration number so a stub provider can answer
differently on successive attempts; each call either returns data or raises
a BotoServerError. -/
structure Client where
  describe_auto_scaling_groups : String → Nat → Except BotoServerError (List RawASG)
  get_all_policies : String → Nat → Except BotoServerError (List RawPolicy)
  get_all_scheduled_actions : String → Nat → Except BotoServerError (List RawAction)

/-- The body of the try block of the source, for loop iteration k: describe
the group (returning the empty dict when no group matches), normalize the
attributes, fetch and project the scaling policies, fetch and project the
scheduled actions, and assemble the final ordered record. -/
def tryBody (client : Client) (name : String) (k : Nat) : Except PyExc PyVal :=
  match client.describe_auto_scaling_groups name k with
  | .error e => .error (.botoServerError e)
  | .ok asgs =>
    match asgs.head? with
    | none => .ok (.vDict [])
    | some asg =>
      match buildAttrRet asg with
      | .error e => .error e
      | .ok ret =>
        match client.get_all_policies name k with
        | .error e => .error (.botoServerError e)
        | .ok policies =>
          match client.get_all_scheduled_actions name k with
          | .error e => .error (.botoServerError e)
          | .ok actions =>
            match buildScheduledActions actions [] with
            | .error e => .error e
            | .ok sa =>
              .ok (.vDict (odSet (odSet ret "scaling_policies"
                (.vList (policies.map policyDict))) "scheduled_actions" (.vDict sa)))

/-- How one call of get_config ends: a Python return of a value, or an
exception propagating out of the function. -/
inductive Outcome where
  | ret (v : PyVal)
  | raised (e : PyExc)

/-- The observable result of one call of get_config: the outcome, the number
of times the describe call was issued, and the number of 5 second throttle
sleeps. -/
structure RunResult where
  outcome : Outcome
  attempts : Nat
  sleeps : Nat

/-- The while True retry loop of the source: run the try body; on a
BotoServerError whose code is Throttling with retries remaining, sleep,
decrement retries and continue; on any other BotoServerError (or on
throttle exhaustion) log and return the empty dict; any non-boto exception
is not caught and propagates. -/
def getConfigLoop (client : Client) (name : String) :
    Nat → Nat → Nat → RunResult
  | retries, attempt, sleeps =>
    match tryBody client name attempt with
    | .ok v => ⟨.ret v, attempt + 1, sleeps⟩
    | .error (.botoServerError e) =>
      if e.code = "Throttling" then
        match retries with
        | r + 1 => getConfigLoop client name r (attempt + 1) (sleeps + 1)
        | 0 => ⟨.ret (.vDict []), attempt + 1, sleeps⟩
      else ⟨.ret (.vDict []), attempt + 1, sleeps⟩
    | .error e => ⟨.raised e, attempt + 1, sleeps⟩

/-- The function get_config of the source: the retry loop entered with the
retries counter set to 30 and no calls or sleeps yet issued. -/
def get_config (client : Client) (name : String) : RunResult :=
  getConfigLoop client name 30 0 0

/-- The fixed key order of a populated output record, as given by the rename
table followed by the two assignments for scaling policies and scheduled
actions. -/
def outputKeys : List String :=
  ["name", "availability_zones", "default_cooldown", "desired_capacity",
   "health_check_period", "health_check_type", "launch_config_name",
   "load_balancers", "max_size", "min_size", "vpc_zone_identifier", "tags",
   "termination_policies", "suspended_processes", "scaling_policies",
   "scheduled_actions"]

/-- Looking up the key just assigned returns the assigned value. -/
theorem odGet_odSet_self (m : OD) (k : String) (v : PyVal) :
    odGet (odSet m k v) k = some v := by
  induction m with
  | nil => simp [odSet, odGet]
  | cons kv rest ih =>
    obtain ⟨k₀, v₀⟩ := kv
    by_cases h : k₀ = k
    · simp [odSet, odGet, h]
    · simp [odSet, odGet, h, ih]

/-- Assignment to one key does not change the value found at another key. -/
theorem odGet_odSet_ne (m : OD) (k k₂ : String) (v : PyVal) (h : k ≠ k₂) :
    odGet (odSet m k v) k₂ = odGet m k₂ := by
  induction m with
  | nil => simp [odSet, odGet, h]
  | cons kv rest ih =>
    obtain ⟨k₀, v₀⟩ := kv
    by_cases h₀ : k₀ = k
    · subst h₀
      simp [odSet, odGet, h]
    · simp [odSet, odGet, h₀, ih]

/-- The code-point order on character sequences is total. -/
theorem charsLe_total : ∀ as bs : List Char,
    charsLe as bs = true ∨ charsLe bs as = true := by
  intro as
  induction as with
  | nil => intro bs; left; rfl
  | cons a as ih =>
    intro bs
    cases bs with
    | nil => right; rfl
    | cons b bs =>
      simp only [charsLe]
      rcases Nat.lt_trichotomy a.toNat b.toNat with h | h | h
      · left; simp [h]
      · have h₂ : ¬ a.toNat < b.toNat := by omega
        have h₃ : ¬ b.toNat < a.toNat := by omega
        simp only [h₂, h₃, if_false]
        exact ih bs
      · right; simp [h]

/-- The code-point order on character sequences is transitive. -/
theorem charsLe_trans : ∀ as bs cs : List Char,
    charsLe as bs = true → charsLe bs cs = true → charsLe as cs = true := by
  intro as
  induction as with
  | nil => intro bs cs _ _; rfl
  | cons a as ih =>
    intro bs cs h₁ h₂
    cases bs with
    | nil => simp [charsLe] at h₁
    | cons b bs =>
      cases cs with
      | nil => simp [charsLe] at h₂
      | cons c cs =>
        simp only [charsLe] at h₁ h₂ ⊢
        rcases Nat.lt_trichotomy a.toNat b.toNat with hab | hab | hab
        · rcases Nat.lt_trichotomy b.toNat c.toNat with hbc | hbc | hbc
          · have hac : a.toNat < c.toNat := by omega
            simp [hac]
          · have hac : a.toNat < c.toNat := by omega
            simp [hac]
          · have h₃ : ¬ b.toNat < c.toNat := by omega
            simp [h₃, hbc] at h₂
        · rcases Nat.lt_trichotomy b.toNat c.toNat with hbc | hbc | hbc
          · have hac : a.toNat < c.toNat := by omega
            simp [hac]
          · have h₄ : ¬ a.toNat < b.toNat := by omega
            have h₅ : ¬ b.toNat < a.toNat := by omega
            have h₆ : ¬ b.toNat < c.toNat := by omega
            have h₇ : ¬ c.toNat < b.toNat := by omega
            have h₈ : ¬ a.toNat < c.toNat := by omega
            have h₉ : ¬ c.toNat < a.toNat := by omega
            simp only [h₄, h₅, if_false] at h₁
            simp only [h₆, h₇, if_false] at h₂
            simp only [h₈, h₉, if_false]
            exact ih bs cs h₁ h₂
          · have h₆ : ¬ b.toNat < c.toNat := by omega
            simp [h₆, hbc] at h₂
        · have h₄ : ¬ a.toNat < b.toNat := by omega
          simp [h₄, hab] at h₁

instance : IsTotal String (fun a b => lexLe a b = true) :=
  ⟨fun a b => charsLe_total a.data b.data⟩

instance : IsTrans String (fun a b => lexLe a b = true) :=
  ⟨fun a b c => charsLe_trans a.data b.data c.data⟩

/-- Normalizing a raw group whose VPC zone identifier is a string yields
exactly the fourteen-entry ordered record of the rename table, with every
per-field transform applied. -/
theorem buildAttrRet_str (n : String) (az : List String) (dc desc hcp : Int)
    (hct lcn : String) (lb : List String) (mx mn : Int) (s : String)
    (tg : List RawTag) (tp : List String) (sp : List RawSuspendedProcess) :
    buildAttrRet ⟨n, az, dc, desc, hcp, hct, lcn, lb, mx, mn, .str s, tg, tp, sp⟩ =
      .ok [("name", .vStr n),
           ("availability_zones", .vList (az.map .vStr)),
           ("default_cooldown", .vInt dc),
           ("desired_capacity", .vInt desc),
           ("health_check_period", .vInt hcp),
           ("health_check_type", .vStr hct),
           ("launch_config_name", .vStr lcn),
           ("load_balancers", .vList (lb.map .vStr)),
           ("max_size", .vInt mx),
           ("min_size", .vInt mn),
           ("vpc_zone_identifier", .vList ((pySplitComma s).map .vStr)),
           ("tags", .vList (tg.map tagDict)),
           ("termination_policies", .vList (tp.map .vStr)),
           ("suspended_processes",
             .vList ((pySorted (sp.map RawSuspendedProcess.ProcessName)).map .vStr))] :=
  rfl

/-- Normalizing a raw group whose VPC zone identifier is a native list
raises AttributeError at the split call. -/
theorem buildAttrRet_list (n : String) (az : List String) (dc desc hcp : Int)
    (hct lcn : String) (lb : List String) (mx mn : Int) (l : List String)
    (tg : List RawTag) (tp : List String) (sp : List RawSuspendedProcess) :
    buildAttrRet ⟨n, az, dc, desc, hcp, hct, lcn, lb, mx, mn, .list l, tg, tp, sp⟩ =
      .error .attributeError :=
  rfl

/-- Whenever the attribute-normalization pass succeeds, appending the two
policy and action entries produces a record with the fixed key order. -/
theorem buildAttrRet_keys (asg : RawASG) (ret : OD) (p q : PyVal)
    (h : buildAttrRet asg = .ok ret) :
    odKeys (odSet (odSet ret "scaling_policies" p) "scheduled_actions" q) =
      outputKeys := by
  obtain ⟨n, az, dc, desc, hcp, hct, lcn, lb, mx, mn, vzi, tg, tp, sp⟩ := asg
  cases vzi with
  | str s =>
    rw [buildAttrRet_str] at h
    cases h
    rfl
  | list l =>
    rw [buildAttrRet_list] at h
    cases h

/-- A describe error becomes a BotoServerError raised from the try body. -/
theorem tryBody_describe_error (client : Client) (name : String) (k : Nat)
    (e : BotoServerError)
    (h : client.describe_auto_scaling_groups name k = .error e) :
    tryBody client name k = .error (.botoServerError e) := by
  simp [tryBody, h]

/-- A describe call matching no group makes the try body return the empty
dict. -/
theorem tryBody_notFound (client : Client) (name : String) (k : Nat)
    (h : client.describe_auto_scaling_groups name k = .ok []) :
    tryBody client name k = .ok (.vDict []) := by
  simp [tryBody, h]

/-- A policy-fetch error becomes a BotoServerError raised from the try
body, provided describe succeeded and normalization succeeded. -/
theorem tryBody_policies_error (client : Client) (name : String) (k : Nat)
    (asgs : List RawASG) (asg : RawASG) (ret : OD) (e : BotoServerError)
    (hd : client.describe_auto_scaling_groups name k = .ok asgs)
    (hh : asgs.head? = some asg)
    (hb : buildAttrRet asg = .ok ret)
    (hp : client.get_all_policies name k = .error e) :
    tryBody client name k = .error (.botoServerError e) := by
  simp [tryBody, hd, hh, hb, hp]

/-- A scheduled-action-fetch error becomes a BotoServerError raised from
the try body, provided all earlier steps succeeded. -/
theorem tryBody_actions_error (client : Client) (name : String) (k : Nat)
    (asgs : List RawASG) (asg : RawASG) (ret : OD) (policies : List RawPolicy)
    (e : BotoServerError)
    (hd : client.describe_auto_scaling_groups name k = .ok asgs)
    (hh : asgs.head? = some asg)
    (hb : buildAttrRet asg = .ok ret)
    (hp : client.get_all_policies name k = .ok policies)
    (ha : client.get_all_scheduled_actions name k = .error e) :
    tryBody client name k = .error (.botoServerError e) := by
  simp [tryBody, hd, hh, hb, hp, ha]

/-- A try body that returns normally ends the loop with that value, one
more describe attempt and no further sleep. -/
theorem getConfigLoop_ok (client : Client) (name : String)
    (retries attempt sleeps : Nat) (v : PyVal)
    (h : tryBody client name attempt = .ok v) :
    getConfigLoop client name retries attempt sleeps =
      ⟨.ret v, attempt + 1, sleeps⟩ := by
  cases retries with
  | zero => rw [getConfigLoop.eq_2, h]
  | succ r => rw [getConfigLoop.eq_1, h]

/-- A throttling BotoServerError with retries remaining sleeps once,
consumes one retry and re-runs the loop from the describe call. -/
theorem getConfigLoop_throttle_step (client : Client) (name : String)
    (r attempt sleeps : Nat) (e : BotoServerError)
    (h : tryBody client name attempt = .error (.botoServerError e))
    (hc : e.code = "Throttling") :
    getConfigLoop client name (r + 1) attempt sleeps =
      getConfigLoop client name r (attempt + 1) (sleeps + 1) := by
  rw [getConfigLoop.eq_1, h]
  simp [hc]

/-- A throttling BotoServerError with the retry budget exhausted makes the
loop return the empty dict. -/
theorem getConfigLoop_throttle_exhausted (client : Client) (name : String)
    (attempt sleeps : Nat) (e : BotoServerError)
    (h : tryBody client name attempt = .error (.botoServerError e))
    (hc : e.code = "Throttling") :
    getConfigLoop client name 0 attempt sleeps =
      ⟨.ret (.vDict []), attempt + 1, sleeps⟩ := by
  rw [getConfigLoop.eq_2, h]
  simp [hc]

/-- A non-throttling BotoServerError makes the loop log and return the
empty dict, whatever the remaining retry budget. -/
theorem getConfigLoop_boto_other (client : Client) (name : String)
    (retries attempt sleeps : Nat) (e : BotoServerError)
    (h : tryBody client name attempt = .error (.botoServerError e))
    (hc : e.code ≠ "Throttling") :
    getConfigLoop client name retries attempt sleeps =
      ⟨.ret (.vDict []), attempt + 1, sleeps⟩ := by
  cases retries with
  | zero => rw [getConfigLoop.eq_2, h]; simp [hc]
  | succ r => rw [getConfigLoop.eq_1, h]; simp [hc]

/-- An exception other than BotoServerError is not caught by the except
clause and propagates out of get_config. -/
theorem getConfigLoop_raised_attributeError (client : Client) (name : String)
    (retries attempt sleeps : Nat)
    (h : tryBody client name attempt = .error .attributeError) :
    getConfigLoop client name retries attempt sleeps =
      ⟨.raised .attributeError, attempt + 1, sleeps⟩ := by
  cases retries with
  | zero => rw [getConfigLoop.eq_2, h]
  | succ r => rw [getConfigLoop.eq_1, h]

/-- A ValueError from the int coercion is not caught by the except clause
and propagates out of get_config. -/
theorem getConfigLoop_raised_valueError (client : Client) (name : String)
    (retries attempt sleeps : Nat)
    (h : tryBody client name attempt = .error .valueError) :
    getConfigLoop client name retries attempt sleeps =
      ⟨.raised .valueError, attempt + 1, sleeps⟩ := by
  cases retries with
  | zero => rw [getConfigLoop.eq_2, h]
  | succ r => rw [getConfigLoop.eq_1, h]

/-- Running the loop across j consecutive throttled attempts consumes j
retries and j sleeps and advances the attempt counter by j. -/
theorem getConfigLoop_after_throttles (client : Client) (name : String) :
    ∀ (j retries attempt sleeps : Nat), j ≤ retries →
    (∀ i, i < j → ∃ e, tryBody client name (attempt + i) =
        .error (.botoServerError e) ∧ e.code = "Throttling") →
    getConfigLoop client name retries attempt sleeps =
      getConfigLoop client name (retries - j) (attempt + j) (sleeps + j) := by
  intro j
  induction j with
  | zero => intro retries attempt sleeps _ _; rfl
  | succ j ih =>
    intro retries attempt sleeps hle hthr
    obtain ⟨e, he, hc⟩ := hthr 0 (by omega)
    obtain ⟨r, rfl⟩ : ∃ r, retries = r + 1 := ⟨retries - 1, by omega⟩
    rw [Nat.add_zero] at he
    rw [getConfigLoop_throttle_step client name r attempt sleeps e he hc]
    have hrec := ih r (attempt + 1) (sleeps + 1) (by omega) (fun i hi => by
      have h := hthr (i + 1) (by omega)
      have heq : attempt + (i + 1) = attempt + 1 + i := by omega
      rwa [heq] at h)
    rw [hrec]
    have h₁ : r + 1 - (j + 1) = r - j := by omega
    have h₂ : attempt + 1 + j = attempt + (j + 1) := by omega
    have h₃ : sleeps + 1 + j = sleeps + (j + 1) := by omega
    rw [h₁, h₂, h₃]

/-- Any dict returned by the try body is either the empty not-found dict or
has exactly the fixed sixteen-key order. -/
theorem tryBody_ok_dict_keys (client : Client) (name : String) (k : Nat)
    (r : OD) (h : tryBody client name k = .ok (.vDict r)) :
    r = [] ∨ odKeys r = outputKeys := by
  unfold tryBody at h
  split at h
  · simp at h
  · split at h
    · cases h
      left
      rfl
    · split at h
      · simp at h
      · split at h
        · simp at h
        · split at h
          · simp at h
          · split at h
            · simp at h
            · cases h
              exact Or.inr (buildAttrRet_keys _ _ _ _ (by assumption))

/-- Any non-empty dict value returned by the retry loop has exactly the
fixed sixteen-key order. -/
theorem getConfigLoop_keys (client : Client) (name : String) :
    ∀ (retries attempt sleeps : Nat) (r : OD),
    (getConfigLoop client name retries attempt sleeps).outcome = .ret (.vDict r) →
    r = [] ∨ odKeys r = outputKeys := by
  intro retries
  induction retries with
  | zero =>
    intro attempt sleeps r h
    rw [getConfigLoop.eq_2] at h
    split at h
    · next v heq =>
      have h₂ : Outcome.ret v = Outcome.ret (.vDict r) := h
      cases h₂
      exact tryBody_ok_dict_keys client name attempt r heq
    · split at h
      · have h₂ : Outcome.ret (PyVal.vDict []) = Outcome.ret (.vDict r) := h
        cases h₂
        left
        rfl
      · have h₂ : Outcome.ret (PyVal.vDict []) = Outcome.ret (.vDict r) := h
        cases h₂
        left
        rfl
    · next e heq hne =>
      have h₂ : Outcome.raised e = Outcome.ret (.vDict r) := h
      cases h₂
  | succ n ih =>
    intro attempt sleeps r h
    rw [getConfigLoop.eq_1] at h
    split at h
    · next v heq =>
      have h₂ : Outcome.ret v = Outcome.ret (.vDict r) := h
      cases h₂
      exact tryBody_ok_dict_keys client name attempt r heq
    · split at h
      · exact ih (attempt + 1) (sleeps + 1) r h
      · have h₂ : Outcome.ret (PyVal.vDict []) = Outcome.ret (.vDict r) := h
        cases h₂
        left
        rfl
    · next e heq hne =>
      have h₂ : Outcome.raised e = Outcome.ret (.vDict r) := h
      cases h₂

/-- The value found under a name in the scheduled-actions mapping built by
the source loop is the projection of the last provider action bearing that
name, starting from an arbitrary partial mapping. -/
theorem buildScheduledActions_get (nm : String) :
    ∀ (acts : List RawAction) (m₀ m : OD),
    buildScheduledActions acts m₀ = .ok m →
    ((acts.filter (fun a => a.name == nm)).getLast? = none →
      odGet m nm = odGet m₀ nm) ∧
    (∀ a, (acts.filter (fun a => a.name == nm)).getLast? = some a →
      ∃ dc, pyInt a.desired_capacity = .ok dc ∧
        odGet m nm = some (actionEntry a dc)) := by
  intro acts
  induction acts with
  | nil =>
    intro m₀ m h
    simp only [buildScheduledActions] at h
    cases h
    constructor
    · intro _
      rfl
    · intro a ha
      simp [List.filter_nil] at ha
  | cons a rest ih =>
    intro m₀ m h
    simp only [buildScheduledActions] at h
    cases hd : actionDict a with
    | error e =>
      rw [hd] at h
      simp at h
    | ok d =>
      rw [hd] at h
      have hinv := ih (odSet m₀ a.name d) m h
      by_cases hname : a.name == nm
      · have hEq : a.name = nm := by simpa using hname
        cases hfr : rest.filter (fun a => a.name == nm) with
        | nil =>
          constructor
          · intro hnone
            rw [List.filter_cons, if_pos hname, hfr] at hnone
            simp at hnone
          · intro a₂ ha₂
            rw [List.filter_cons, if_pos hname, hfr] at ha₂
            simp only [List.getLast?_singleton, Option.some.injEq] at ha₂
            subst ha₂
            have hmget : odGet m nm = odGet (odSet m₀ a.name d) nm :=
              hinv.1 (by rw [hfr]; rfl)
            rw [hmget, hEq, odGet_odSet_self]
            unfold actionDict at hd
            cases hpy : pyInt a.desired_capacity with
            | error e => rw [hpy] at hd; simp at hd
            | ok dc =>
              rw [hpy] at hd
              have hda : d = actionEntry a dc := by
                have h₃ : Except.ok (ε := PyExc) (actionEntry a dc) = .ok d := hd
                cases h₃
                rfl
              exact ⟨dc, rfl, by rw [hda]⟩
        | cons b l =>
          constructor
          · intro hnone
            rw [List.filter_cons, if_pos hname, hfr, List.getLast?_cons_cons] at hnone
            simp at hnone
          · intro a₂ ha₂
            rw [List.filter_cons, if_pos hname, hfr, List.getLast?_cons_cons] at ha₂
            exact hinv.2 a₂ (by rw [hfr, ha₂])
      · have hne : a.name ≠ nm := by simpa using hname
        constructor
        · intro hnone
          rw [List.filter_cons, if_neg hname] at hnone
          rw [hinv.1 hnone]
          exact odGet_odSet_ne m₀ a.name nm d hne
        · intro a₂ ha₂
          rw [List.filter_cons, if_neg hname] at ha₂
          exact hinv.2 a₂ ha₂

/-- A populated raw group used by the concrete provider stubs, with the
suspended processes deliberately out of lexicographic order. -/
def asgW : RawASG :=
  { AutoScalingGroupName := "web-asg"
    AvailabilityZones := ["us-east-1a"]
    DefaultCooldown := 300
    DesiredCapacity := 4
    HealthCheckGracePeriod := 120
    HealthCheckType := "EC2"
    LaunchConfigurationName := "lc"
    LoadBalancerNames := []
    MaxSize := 10
    MinSize := 2
    VPCZoneIdentifier := .str "subnet-a,subnet-b"
    Tags := [{ Key := "env", Value := "prod", PropagateAtLaunch := true }]
    TerminationPolicies := ["Default"]
    SuspendedProcesses := [{ ProcessName := "Launch" },
                           { ProcessName := "AddToLoadBalancer" }] }

/-- The same raw group with a native list as VPC zone identifier. -/
def asgL : RawASG :=
  { asgW with VPCZoneIdentifier := .list ["subnet-a", "subnet-b"] }

/-- A minimal raw group whose VPC zone identifier is the empty string. -/
def asgE : RawASG :=
  { AutoScalingGroupName := "g"
    AvailabilityZones := []
    DefaultCooldown := 0
    DesiredCapacity := 0
    HealthCheckGracePeriod := 0
    HealthCheckType := "EC2"
    LaunchConfigurationName := "lc"
    LoadBalancerNames := []
    MaxSize := 0
    MinSize := 0
    VPCZoneIdentifier := .str ""
    Tags := []
    TerminationPolicies := []
    SuspendedProcesses := [] }

/-- A scheduled action whose desired capacity is the integer-literal string
used in the end-to-end example of the specification. -/
def actW : RawAction :=
  { name := "nightly-scale"
    min_size := .vInt 1
    max_size := .vInt 5
    desired_capacity := .ofStr "3"
    start_time := ⟨2020, 1, 2, 3, 4, 5⟩
    end_time := none
    recurrence := .vStr "0 2 * * *" }

/-- A scheduled action whose raw desired capacity is the string 4.0. -/
def act40 : RawAction :=
  { actW with name := "float-scale", desired_capacity := .ofStr "4.0" }

/-- A first scheduled action named x. -/
def actA : RawAction :=
  { name := "x"
    min_size := .vInt 1
    max_size := .vInt 5
    desired_capacity := .ofInt 1
    start_time := ⟨2020, 1, 1, 0, 0, 0⟩
    end_time := none
    recurrence := .vStr "r1" }

/-- A second scheduled action also named x, with an end time present. -/
def actB : RawAction :=
  { name := "x"
    min_size := .vInt 2
    max_size := .vInt 6
    desired_capacity := .ofInt 2
    start_time := ⟨2021, 2, 3, 4, 5, 6⟩
    end_time := some ⟨2021, 2, 3, 5, 0, 0⟩
    recurrence := .vStr "r2" }

/-- The normalized fourteen-entry attribute record of asgW. -/
def fullAttrRecord : OD :=
  [("name", .vStr "web-asg"),
   ("availability_zones", .vList [.vStr "us-east-1a"]),
   ("default_cooldown", .vInt 300),
   ("desired_capacity", .vInt 4),
   ("health_check_period", .vInt 120),
   ("health_check_type", .vStr "EC2"),
   ("launch_config_name", .vStr "lc"),
   ("load_balancers", .vList []),
   ("max_size", .vInt 10),
   ("min_size", .vInt 2),
   ("vpc_zone_identifier", .vList [.vStr "subnet-a", .vStr "subnet-b"]),
   ("tags", .vList [.vDict [("key", .vStr "env"), ("value", .vStr "prod"),
     ("propagate_at_launch", .vBool true)]]),
   ("termination_policies", .vList [.vStr "Default"]),
   ("suspended_processes", .vList [.vStr "AddToLoadBalancer", .vStr "Launch"])]

/-- The full sixteen-entry record returned for asgW with no scaling policy
and the single scheduled action actW. -/
def fullRecord : OD :=
  fullAttrRecord ++
  [("scaling_policies", .vList []),
   ("scheduled_actions", .vDict [("nightly-scale", .vDict
     [("min_size", .vInt 1), ("max_size", .vInt 5), ("desired_capacity", .vInt 3),
      ("start_time", .vStr "2020-01-02T03:04:05"), ("end_time", .vNone),
      ("recurrence", .vStr "0 2 * * *")])])]

/-- A provider stub that always answers successfully with asgW, no policy
and one scheduled action. -/
def fullClient : Client :=
  { describe_auto_scaling_groups := fun _ _ => .ok [asgW]
    get_all_policies := fun _ _ => .ok []
    get_all_scheduled_actions := fun _ _ => .ok [actW] }

/-- A provider stub whose group carries a native list VPC zone identifier. -/
def clList : Client :=
  { fullClient with describe_auto_scaling_groups := fun _ _ => .ok [asgL] }

/-- A provider stub whose scheduled action carries the string 4.0 as raw
desired capacity. -/
def clDc40 : Client :=
  { fullClient with get_all_scheduled_actions := fun _ _ => .ok [act40] }

/-- A provider stub whose policy fetch always fails with a non-throttling
provider error. -/
def clPolicyErr : Client :=
  { fullClient with get_all_policies := fun _ _ => .error ⟨"InternalFailure"⟩ }

/-- A provider stub whose scheduled-action fetch always fails with a
non-throttling provider error. -/
def clActionErr : Client :=
  { fullClient with get_all_scheduled_actions := fun _ _ => .error ⟨"InternalFailure"⟩ }

/-- A provider stub whose describe call always throttles. -/
def clThrottleAll : Client :=
  { fullClient with describe_auto_scaling_groups := fun _ _ => .error ⟨"Throttling"⟩ }

/-- A provider stub whose describe call throttles on the first two attempts
and then succeeds. -/
def clThrottleTwo : Client :=
  { fullClient with describe_auto_scaling_groups := fun _ k =>
      if k < 2 then .error ⟨"Throttling"⟩ else .ok [asgW] }

/-- A provider stub for which no group matches the requested name. -/
def clNotFound : Client :=
  { fullClient with describe_auto_scaling_groups := fun _ _ => .ok [] }

/-- A provider stub whose policy fetch throttles on the first attempt only. -/
def clPolThrottle : Client :=
  { fullClient with get_all_policies := fun _ k =>
      if k = 0 then .error ⟨"Throttling"⟩ else .ok [] }

/-- A provider stub whose scheduled-action fetch throttles on the first
attempt only. -/
def clActThrottle : Client :=
  { fullClient with get_all_scheduled_actions := fun _ k =>
      if k = 0 then .error ⟨"Throttling"⟩ else .ok [actW] }

/-- The scheduled-actions mapping built from the two same-named actions. -/
def mAB : OD := [("x", actionEntry actB 2)]

/-- The normalized attribute record of the minimal group asgE. -/
def retE : OD :=
  [("name", .vStr "g"),
   ("availability_zones", .vList []),
   ("default_cooldown", .vInt 0),
   ("desired_capacity", .vInt 0),
   ("health_check_period", .vInt 0),
   ("health_check_type", .vStr "EC2"),
   ("launch_config_name", .vStr "lc"),
   ("load_balancers", .vList []),
   ("max_size", .vInt 0),
   ("min_size", .vInt 0),
   ("vpc_zone_identifier", .vList [.vStr ""]),
   ("tags", .vList []),
   ("termination_policies", .vList []),
   ("suspended_processes", .vList [])]

set_option maxRecDepth 10000

/-- C1 (amended): a comma-joined string VPC zone identifier is split into
the sequence of its comma-separated elements in order; a native list is not
tolerated: the split call raises AttributeError, which is not caught and
propagates out of get_config. -/
theorem vpc_zone_identifier_split :
    (∀ (asg : RawASG) (s : String) (ret : OD),
      asg.VPCZoneIdentifier = .str s →
      buildAttrRet asg = .ok ret →
      odGet ret "vpc_zone_identifier" =
        some (.vList ((pySplitComma s).map .vStr)))
    ∧ (∀ (asg : RawASG) (l : List String),
      asg.VPCZoneIdentifier = .list l →
      buildAttrRet asg = .error .attributeError)
    ∧ (∀ (client : Client) (name : String) (k retries sleeps : Nat),
      tryBody client name k = .error .attributeError →
      getConfigLoop client name retries k sleeps =
        ⟨.raised .attributeError, k + 1, sleeps⟩) := by
  refine ⟨?_, ?_, ?_⟩
  · intro asg s ret hs h
    obtain ⟨n, az, dc, desc, hcp, hct, lcn, lb, mx, mn, vzi, tg, tp, sp⟩ := asg
    cases hs
    rw [buildAttrRet_str] at h
    cases h
    rfl
  · intro asg l hl
    obtain ⟨n, az, dc, desc, hcp, hct, lcn, lb, mx, mn, vzi, tg, tp, sp⟩ := asg
    cases hl
    exact buildAttrRet_list n az dc desc hcp hct lcn lb mx mn l tg tp sp
  · intro client name k retries sleeps h
    exact getConfigLoop_raised_attributeError client name retries k sleeps h

/-- C1 witness: the three cases of the amended claim at concrete inputs. -/
theorem vpc_zone_identifier_split_witness :
    odGet fullAttrRecord "vpc_zone_identifier" =
      some (.vList [.vStr "subnet-a", .vStr "subnet-b"]) ∧
    buildAttrRet asgL = .error .attributeError ∧
    getConfigLoop clList "web-asg" 30 0 0 = ⟨.raised .attributeError, 1, 0⟩ :=
  ⟨vpc_zone_identifier_split.1 asgW "subnet-a,subnet-b" fullAttrRecord rfl rfl,
   vpc_zone_identifier_split.2.1 asgL ["subnet-a", "subnet-b"] rfl,
   vpc_zone_identifier_split.2.2 clList "web-asg" 0 30 0 rfl⟩

/-- C1 counterexample: against a provider whose group reports the VPC zone
identifier as a native list of strings, get_config does not return a record
with that list passed through; it raises AttributeError. -/
theorem vpc_native_list_counterexample :
    get_config clList "web-asg" = ⟨.raised .attributeError, 1, 0⟩ := rfl

/-- C2 (amended): whenever the int coercion of the raw desired capacity
succeeds, the projected scheduled action carries that integer under the
desired_capacity key; the coercion accepts ints, floats (truncating, so the
float 4.0 yields 4) and integer-literal strings, but the string 4.0 raises
ValueError. -/
theorem desired_capacity_int_coercion :
    (∀ (action : RawAction) (dc : Int),
      pyInt action.desired_capacity = .ok dc →
      ∃ d, actionDict action = .ok (.vDict d) ∧
        odGet d "desired_capacity" = some (.vInt dc))
    ∧ pyInt (.ofInt 4) = .ok 4
    ∧ pyInt (.ofFloat 4) = .ok 4
    ∧ pyInt (.ofStr "4") = .ok 4
    ∧ pyInt (.ofStr "3") = .ok 3
    ∧ pyInt (.ofStr "4.0") = .error .valueError := by
  refine ⟨?_, rfl, rfl, rfl, rfl, rfl⟩
  intro action dc h
  refine ⟨[("min_size", action.min_size), ("max_size", action.max_size),
    ("desired_capacity", .vInt dc),
    ("start_time", .vStr action.start_time.isoformat),
    ("end_time", endTimeVal action.end_time),
    ("recurrence", action.recurrence)], ?_, rfl⟩
  unfold actionDict
  rw [h]
  rfl

/-- C2 witness: the coercion branch of the amended claim at the concrete
action whose raw desired capacity is the string 3. -/
theorem desired_capacity_int_coercion_witness :
    ∃ d, actionDict actW = .ok (.vDict d) ∧
      odGet d "desired_capacity" = some (.vInt 3) :=
  desired_capacity_int_coercion.1 actW 3 rfl

/-- C2 counterexample: against a provider whose scheduled action reports
the raw desired capacity string 4.0, get_config does not output the integer
4; the int builtin raises ValueError and the call aborts. -/
theorem desired_capacity_float_string_counterexample :
    get_config clDc40 "web-asg" = ⟨.raised .valueError, 1, 0⟩ := rfl

/-- C3 (amended): a BotoServerError raised by the scaling-policy fetch or
the scheduled-action fetch is caught by the same except handler as the
describe call: with a non-throttling code the error is logged and the
function returns an empty record instead of propagating the error. -/
theorem policy_action_errors_caught :
    (∀ (client : Client) (name : String) (k retries sleeps : Nat)
      (asgs : List RawASG) (asg : RawASG) (ret : OD) (e : BotoServerError),
      client.describe_auto_scaling_groups name k = .ok asgs →
      asgs.head? = some asg →
      buildAttrRet asg = .ok ret →
      client.get_all_policies name k = .error e →
      e.code ≠ "Throttling" →
      getConfigLoop client name retries k sleeps =
        ⟨.ret (.vDict []), k + 1, sleeps⟩)
    ∧ (∀ (client : Client) (name : String) (k retries sleeps : Nat)
      (asgs : List RawASG) (asg : RawASG) (ret : OD)
      (policies : List RawPolicy) (e : BotoServerError),
      client.describe_auto_scaling_groups name k = .ok asgs →
      asgs.head? = some asg →
      buildAttrRet asg = .ok ret →
      client.get_all_policies name k = .ok policies →
      client.get_all_scheduled_actions name k = .error e →
      e.code ≠ "Throttling" →
      getConfigLoop client name retries k sleeps =
        ⟨.ret (.vDict []), k + 1, sleeps⟩) := by
  constructor
  · intro client name k retries sleeps asgs asg ret e hd hh hb hp hc
    exact getConfigLoop_boto_other client name retries k sleeps e
      (tryBody_policies_error client name k asgs asg ret e hd hh hb hp) hc
  · intro client name k retries sleeps asgs asg ret policies e hd hh hb hp ha hc
    exact getConfigLoop_boto_other client name retries k sleeps e
      (tryBody_actions_error client name k asgs asg ret policies e hd hh hb hp ha) hc

/-- C3 witness: both fetch-error cases of the amended claim at concrete
stub providers. -/
theorem policy_action_errors_caught_witness :
    getConfigLoop clPolicyErr "web-asg" 30 0 0 = ⟨.ret (.vDict []), 1, 0⟩ ∧
    getConfigLoop clActionErr "web-asg" 30 0 0 = ⟨.ret (.vDict []), 1, 0⟩ :=
  ⟨policy_action_errors_caught.1 clPolicyErr "web-asg" 0 30 0 [asgW] asgW
      fullAttrRecord ⟨"InternalFailure"⟩ rfl rfl rfl rfl (by decide),
   policy_action_errors_caught.2 clActionErr "web-asg" 0 30 0 [asgW] asgW
      fullAttrRecord [] ⟨"InternalFailure"⟩ rfl rfl rfl rfl rfl (by decide)⟩

/-- C3 counterexample: against a provider whose policy fetch fails with a
non-throttling provider error, get_config does not propagate a fatal
failure; the error is caught and an empty record is returned. -/
theorem policy_error_not_propagated_counterexample :
    get_config clPolicyErr "web-asg" = ⟨.ret (.vDict []), 1, 0⟩ := rfl

/-- C4 (amended): against a provider that throttles the first N describe
calls (N below 30) and then succeeds, get_config returns the successful
result after sleeping exactly N times; against a provider that always
throttles, it issues exactly 31 describe attempts (the initial call plus 30
retries), sleeping 30 times, and then returns an empty record. -/
theorem throttle_retry_counts :
    (∀ (client : Client) (name : String) (N : Nat) (v : PyVal), N < 30 →
      (∀ k, k < N → ∃ e, client.describe_auto_scaling_groups name k = .error e ∧
          e.code = "Throttling") →
      tryBody client name N = .ok v →
      get_config client name = ⟨.ret v, N + 1, N⟩)
    ∧ (∀ (client : Client) (name : String),
      (∀ k, ∃ e, client.describe_auto_scaling_groups name k = .error e ∧
          e.code = "Throttling") →
      get_config client name = ⟨.ret (.vDict []), 31, 30⟩) := by
  constructor
  · intro client name N v hN hthr hok
    have h₁ := getConfigLoop_after_throttles client name N 30 0 0 (by omega)
      (fun i hi => by
        obtain ⟨e, he, hc⟩ := hthr i hi
        refine ⟨e, ?_, hc⟩
        rw [Nat.zero_add]
        exact tryBody_describe_error client name i e he)
    unfold get_config
    rw [h₁]
    simpa using getConfigLoop_ok client name (30 - N) N N v hok
  · intro client name hthr
    have h₁ := getConfigLoop_after_throttles client name 30 30 0 0 (Nat.le_refl 30)
      (fun i _ => by
        obtain ⟨e, he, hc⟩ := hthr (0 + i)
        exact ⟨e, tryBody_describe_error client name (0 + i) e he, hc⟩)
    unfold get_config
    rw [h₁]
    obtain ⟨e, he, hc⟩ := hthr 30
    have h₂ := getConfigLoop_throttle_exhausted client name 30 30 e
      (tryBody_describe_error client name 30 e he) hc
    exact h₂

/-- C4 witness: both halves of the amended claim at concrete stubs, with
two initial throttles and with unbounded throttling. -/
theorem throttle_retry_counts_witness :
    get_config clThrottleTwo "web-asg" = ⟨.ret (.vDict fullRecord), 3, 2⟩ ∧
    get_config clThrottleAll "web-asg" = ⟨.ret (.vDict []), 31, 30⟩ :=
  ⟨throttle_retry_counts.1 clThrottleTwo "web-asg" 2 (.vDict fullRecord)
      (by omega)
      (fun k hk => ⟨⟨"Throttling"⟩, by
        simp [clThrottleTwo, fullClient, hk], rfl⟩)
      rfl,
   throttle_retry_counts.2 clThrottleAll "web-asg"
      (fun k => ⟨⟨"Throttling"⟩, rfl, rfl⟩)⟩

/-- C4 counterexample: against a provider that always throttles, get_config
issues 31 describe attempts, not 30, before returning the empty record. -/
theorem throttle_exhaustion_attempts_counterexample :
    get_config clThrottleAll "web-asg" = ⟨.ret (.vDict []), 31, 30⟩ ∧
    (31 : Nat) ≠ 30 := ⟨rfl, by omega⟩

/-- C5 (confirmed): every successful non-empty record returned by
get_config is an ordered mapping whose keys appear in exactly the fixed
sixteen-key order of the output contract. -/
theorem output_key_order (client : Client) (name : String) (r : OD)
    (h : (get_config client name).outcome = .ret (.vDict r)) (hne : r ≠ []) :
    odKeys r = outputKeys := by
  rcases getConfigLoop_keys client name 30 0 0 r h with h₁ | h₂
  · exact absurd h₁ hne
  · exact h₂

/-- C5 witness: the key order of the concrete populated run. -/
theorem output_key_order_witness : odKeys fullRecord = outputKeys :=
  output_key_order fullClient "web-asg" fullRecord rfl
    (by simp [fullRecord, fullAttrRecord])

/-- C6 (confirmed): when the describe call finds no matching group,
get_config returns the empty record on the first attempt, with no sleep and
no exception. -/
theorem not_found_empty (client : Client) (name : String)
    (h : client.describe_auto_scaling_groups name 0 = .ok []) :
    get_config client name = ⟨.ret (.vDict []), 1, 0⟩ := by
  unfold get_config
  exact getConfigLoop_ok client name 30 0 0 (.vDict [])
    (tryBody_notFound client name 0 h)

/-- C6 witness: the not-found run of the concrete stub. -/
theorem not_found_empty_witness :
    get_config clNotFound "ghost" = ⟨.ret (.vDict []), 1, 0⟩ :=
  not_found_empty clNotFound "ghost" rfl

/-- C7 (confirmed): whenever attribute normalization succeeds, the
suspended_processes entry is a sequence of strings that is a permutation of
the provider process names and is sorted ascending in the code-point
lexicographic order. -/
theorem suspended_processes_sorted (asg : RawASG) (ret : OD)
    (h : buildAttrRet asg = .ok ret) :
    ∃ l : List String,
      odGet ret "suspended_processes" = some (.vList (l.map .vStr)) ∧
      l.Perm (asg.SuspendedProcesses.map RawSuspendedProcess.ProcessName) ∧
      List.Sorted (fun a b => lexLe a b = true) l := by
  obtain ⟨n, az, dc, desc, hcp, hct, lcn, lb, mx, mn, vzi, tg, tp, sp⟩ := asg
  cases vzi with
  | list l =>
    rw [buildAttrRet_list] at h
    cases h
  | str s =>
    rw [buildAttrRet_str] at h
    cases h
    refine ⟨pySorted (sp.map RawSuspendedProcess.ProcessName), rfl, ?_, ?_⟩
    · exact List.perm_insertionSort _ _
    · exact List.sorted_insertionSort _ _

/-- C7 witness: the sorted suspended processes of the concrete group. -/
theorem suspended_processes_sorted_witness :
    ∃ l : List String,
      odGet fullAttrRecord "suspended_processes" =
        some (.vList (l.map .vStr)) ∧
      l.Perm (asgW.SuspendedProcesses.map RawSuspendedProcess.ProcessName) ∧
      List.Sorted (fun a b => lexLe a b = true) l :=
  suspended_processes_sorted asgW fullAttrRecord rfl

/-- C8 (confirmed): the scheduled-actions output is a mapping keyed by
action name in which the last provider action with a given name wins; every
entry stores the mandatory start time as its isoformat string and the end
time as its isoformat string when present and as None otherwise. -/
theorem scheduled_actions_mapping (acts : List RawAction) (m : OD)
    (h : buildScheduledActions acts [] = .ok m) (nm : String) :
    (((acts.filter (fun a => a.name == nm)).getLast? = none →
        odGet m nm = none) ∧
      (∀ a, (acts.filter (fun a => a.name == nm)).getLast? = some a →
        ∃ dc, pyInt a.desired_capacity = .ok dc ∧
          odGet m nm = some (actionEntry a dc)))
    ∧ (∀ (a : RawAction) (dc : Int), ∃ d, actionEntry a dc = .vDict d ∧
        odGet d "start_time" = some (.vStr a.start_time.isoformat) ∧
        odGet d "end_time" = some (endTimeVal a.end_time))
    ∧ endTimeVal none = .vNone
    ∧ (∀ t, endTimeVal (some t) = .vStr t.isoformat) := by
  have hinv := buildScheduledActions_get nm acts [] m h
  refine ⟨⟨fun hn => ?_, hinv.2⟩, fun a dc => ?_, rfl, fun t => rfl⟩
  · rw [hinv.1 hn]
    rfl
  · exact ⟨[("min_size", a.min_size), ("max_size", a.max_size),
      ("desired_capacity", .vInt dc),
      ("start_time", .vStr a.start_time.isoformat),
      ("end_time", endTimeVal a.end_time),
      ("recurrence", a.recurrence)], rfl, rfl, rfl⟩

/-- C8 witness: two same-named actions, where the last one wins. -/
theorem scheduled_actions_mapping_witness :
    ∃ dc, pyInt actB.desired_capacity = .ok dc ∧
      odGet mAB "x" = some (actionEntry actB dc) :=
  (scheduled_actions_mapping [actA, actB] mAB rfl "x").1.2 actB rfl

/-- C9 (confirmed): a throttling BotoServerError raised by the
scaling-policy fetch or the scheduled-action fetch is caught by the same
handler as describe throttles, consumes one unit of the same retry budget,
sleeps once, and restarts the whole loop from the describe call, discarding
the describe result already fetched in that iteration. -/
theorem shared_retry_budget_restart :
    (∀ (client : Client) (name : String) (k retries sleeps : Nat)
      (asgs : List RawASG) (asg : RawASG) (ret : OD) (e : BotoServerError),
      client.describe_auto_scaling_groups name k = .ok asgs →
      asgs.head? = some asg →
      buildAttrRet asg = .ok ret →
      client.get_all_policies name k = .error e →
      e.code = "Throttling" →
      getConfigLoop client name (retries + 1) k sleeps =
        getConfigLoop client name retries (k + 1) (sleeps + 1))
    ∧ (∀ (client : Client) (name : String) (k retries sleeps : Nat)
      (asgs : List RawASG) (asg : RawASG) (ret : OD)
      (policies : List RawPolicy) (e : BotoServerError),
      client.describe_auto_scaling_groups name k = .ok asgs →
      asgs.head? = some asg →
      buildAttrRet asg = .ok ret →
      client.get_all_policies name k = .ok policies →
      client.get_all_scheduled_actions name k = .error e →
      e.code = "Throttling" →
      getConfigLoop client name (retries + 1) k sleeps =
        getConfigLoop client name retries (k + 1) (sleeps + 1)) := by
  constructor
  · intro client name k retries sleeps asgs asg ret e hd hh hb hp hc
    exact getConfigLoop_throttle_step client name retries k sleeps e
      (tryBody_policies_error client name k asgs asg ret e hd hh hb hp) hc
  · intro client name k retries sleeps asgs asg ret policies e hd hh hb hp ha hc
    exact getConfigLoop_throttle_step client name retries k sleeps e
      (tryBody_actions_error client name k asgs asg ret policies e hd hh hb hp ha) hc

/-- C9 witness: both fetch-throttle cases at concrete stub providers that
throttle only on the first attempt. -/
theorem shared_retry_budget_restart_witness :
    getConfigLoop clPolThrottle "web-asg" 30 0 0 =
      getConfigLoop clPolThrottle "web-asg" 29 1 1 ∧
    getConfigLoop clActThrottle "web-asg" 30 0 0 =
      getConfigLoop clActThrottle "web-asg" 29 1 1 :=
  ⟨shared_retry_budget_restart.1 clPolThrottle "web-asg" 0 29 0 [asgW] asgW
      fullAttrRecord ⟨"Throttling"⟩ rfl rfl rfl rfl rfl,
   shared_retry_budget_restart.2 clActThrottle "web-asg" 0 29 0 [asgW] asgW
      fullAttrRecord [] ⟨"Throttling"⟩ rfl rfl rfl rfl rfl rfl⟩

/-- C10 (confirmed): when the provider reports the empty string as VPC zone
identifier, the output entry is the one-element sequence holding the empty
string. -/
theorem empty_vpc_singleton (asg : RawASG) (ret : OD)
    (h₁ : asg.VPCZoneIdentifier = .str "") (h₂ : buildAttrRet asg = .ok ret) :
    odGet ret "vpc_zone_identifier" = some (.vList [.vStr ""]) := by
  obtain ⟨n, az, dc, desc, hcp, hct, lcn, lb, mx, mn, vzi, tg, tp, sp⟩ := asg
  cases h₁
  rw [buildAttrRet_str] at h₂
  cases h₂
  rfl

/-- C10 witness: the empty-string VPC zone identifier of the minimal group. -/
theorem empty_vpc_singleton_witness :
    odGet retE "vpc_zone_identifier" = some (.vList [.vStr ""]) :=
  empty_vpc_singleton asgE retE rfl rfl

end Boto3Asg
